import Mathlib

/-!
Verification development for the IoT fleet-management backend
(backend/app.py and backend/edge_processor.py).

Numeric telemetry fields are modelled as rationals.  The haversine
great-circle distance (calculate_distance in app.py and the identical
_calculate_distance helpers in edge_processor.py) is floating-point
transcendental arithmetic; it is abstracted as an explicit distance-function
parameter distFn threaded through every definition that calls it, and
likewise the numpy standard deviation np.std is abstracted as stdFn and the
IsolationForest outlier prediction as predictFn.  Everything else is
embedded exactly, field by field, from the Python source.
-/

namespace FleetTracking

/-- Geofence configuration, as stored in the geofences map by the POST
geofence route of app.py (created_at, a wall-clock string, is carried as an
opaque field set by the caller). -/
structure GeofenceConfig where
  center_lat : ℚ
  center_lon : ℚ
  radius_km : ℚ
  alert_on_breach : Bool
  alert_on_return : Bool
  name : String
deriving DecidableEq

/-- Geofence transition event returned by check_geofence_breach.  The
wall-clock timestamp and the rounded distance of the Python dict are
display data and are not modelled; the type tag, the two states and the
geofence name are kept. -/
structure GeofenceEvent where
  etype : String
  device_id : String
  previous_state : String
  current_state : String
  geofence_name : String
deriving DecidableEq

/-- Embedding of check_geofence_breach (app.py lines 85-126).  The stored
per-device containment state is passed in as prevState (the map lookup
device_geofence_state.get(device_id, "inside") defaults to "inside") and the
updated stored state is returned alongside the optional event.  distFn
stands for calculate_distance (haversine). -/
def checkGeofenceBreach (distFn : ℚ → ℚ → ℚ → ℚ → ℚ)
    (gf : Option GeofenceConfig) (prevState : Option String)
    (device_id : String) (current_lat current_lon : ℚ) :
    Option GeofenceEvent × Option String :=
  match gf with
  | none => (none, prevState)
  | some g =>
      let distance := distFn g.center_lat g.center_lon current_lat current_lon
      let previous_state := prevState.getD "inside"
      let current_state := if distance ≤ g.radius_km then "inside" else "outside"
      if previous_state ≠ current_state then
        if current_state = "outside" ∧ g.alert_on_breach = true then
          (some ⟨"GEOFENCE_BREACH", device_id, previous_state, current_state, g.name⟩,
           some current_state)
        else if current_state = "inside" ∧ g.alert_on_return = true then
          (some ⟨"GEOFENCE_RETURN", device_id, previous_state, current_state, g.name⟩,
           some current_state)
        else
          (none, some current_state)
      else
        (none, prevState)

/-- Raw inbound telemetry message: the loosely-typed dict handed to
enhanced_handle_telemetry / original_handle_telemetry.  A field that is
none is a key absent from the dict; the inbound messages modelled here
carry typed values or omit a key entirely.  The reduced compressed map is
different: its numeric keys are always present and may carry Python None,
which is not the same as absence for the float conversions in
original_handle_telemetry, so it is modelled separately by CompressedMsg
below. -/
structure RawMsg where
  device_id : Option String := none
  id : Option String := none
  timestamp : Option String := none
  lat : Option ℚ := none
  lon : Option ℚ := none
  battery : Option ℚ := none
  temperature : Option ℚ := none
  status : Option String := none
  device_type : Option String := none
  sensor_data : Option (List (String × String)) := none
  signal_strength : Option ℚ := none
  protocol : Option String := none
  received_at : Option String := none
  compressed : Option Bool := none
deriving DecidableEq

/-- Embedding of the expression
data.get("device_id") or data.get("id", "unknown")
(app.py lines 130 and 164).  Python or-chaining falls through when
device_id is missing or empty (falsy); data.get("id", "unknown") returns
the stored id value even when that value is the empty string, and falls
back to "unknown" only when the id key is absent. -/
def resolveDeviceId (data : RawMsg) : String :=
  match data.device_id with
  | some s => if s = "" then data.id.getD "unknown" else s
  | none => data.id.getD "unknown"

/-- Canonical telemetry record built by original_handle_telemetry
(app.py lines 199-215). -/
structure Sample where
  device_id : String
  timestamp : String
  lat : ℚ
  lon : ℚ
  battery : ℚ
  temperature : ℚ
  status : String
  device_type : String
  sensor_data : List (String × String)
  signal_strength : ℚ
  protocol : String
  received_at : Option String
  geofence_state : String
  edge_processed : Bool
  compressed : Bool
deriving DecidableEq

/-- Device registry entry (app.py lines 169-176). -/
structure DeviceInfo where
  device_type : String
  protocol : String
  firmware_version : String
  capabilities : List String
  registered_at : String
  status : String
deriving DecidableEq

/-- Alert record.  The pipeline appends several dict shapes to the global
alerts deque; the model keeps the fields the claims discriminate on
(device id, type tag, protocol). -/
structure Alert where
  device_id : String
  atype : String
  protocol : String
deriving DecidableEq

/-- Edge insight bookkeeping entry (app.py lines 152-157).  The
compression_ratio field is a ratio of JSON serialization lengths and is
not modelled; the remaining fields are kept. -/
structure Insight where
  last_processed : String
  anomaly_detected : Bool
  data_compressed : Bool
deriving DecidableEq

/-- State of the EdgeIntelligence instance (edge_processor.py):
anomaly_models membership and the per-device pattern_cache.  The model
objects themselves (IsolationForest) carry no modelled content, so
anomaly_models is kept as a membership predicate; pattern_cache
distinguishes an absent key (none) from an empty list. -/
structure EIState where
  anomaly_models : String → Bool
  pattern_cache : String → Option (List (List ℚ))

/-- Embedding of EdgeIntelligence._extract_features. -/
def extractFeatures (t : RawMsg) : List ℚ :=
  [t.battery.getD 0, t.temperature.getD 0, t.signal_strength.getD 0,
   t.lat.getD 0, t.lon.getD 0]

/-- Last k elements of a list, the Python slice xs[-k:]. -/
def lastN (k : Nat) (xs : List α) : List α := xs.drop (xs.length - k)

/-- Embedding of EdgeIntelligence.detect_anomalies (edge_processor.py
lines 15-52).  When the device has no entry in anomaly_models the function
initializes an empty pattern_cache entry if needed and returns False
without caching the sample (the early return on line 22).  Otherwise it
extracts features; with more than 10 cached points it retrains and asks the
model (abstracted as predictFn) for a prediction, and with at most 10 it
appends the features to the cache and returns False.  The append on line 47
indexes pattern_cache[device_id] directly; a missing key there would raise
KeyError, which the surrounding except swallows returning False. -/
def detectAnomalies (predictFn : List (List ℚ) → List ℚ → Bool)
    (st : EIState) (device_id : String) (data : RawMsg) : Bool × EIState :=
  if st.anomaly_models device_id = false then
    match st.pattern_cache device_id with
    | none =>
        (false, { st with pattern_cache :=
          fun j => if j = device_id then some [] else st.pattern_cache j })
    | some _ => (false, st)
  else
    let features := extractFeatures data
    if 10 < ((st.pattern_cache device_id).getD []).length then
      (predictFn (lastN 50 ((st.pattern_cache device_id).getD [])) features, st)
    else
      match st.pattern_cache device_id with
      | some cache =>
          (false, { st with pattern_cache :=
            fun j => if j = device_id then some (cache ++ [features])
                     else st.pattern_cache j })
      | none => (false, st)

/-- Embedding of EdgeIntelligence.compress_telemetry (edge_processor.py
lines 109-158).  compression_enabled is the instance flag set to True in
the constructor and never changed.  The reduced map built on a significant
change indexes current_data with brackets for device_id and timestamp; if
either key is missing the KeyError is caught by the enclosing except and
the full current data is returned with should_process True.  The nested
changes_since_last delta map inside the reduced dict is never read
downstream and is not carried.  Caution: the RawMsg this version returns
for the reduced map collapses its always-present lat, lon, battery and
temperature keys (None in Python when the source message lacks the field)
into absent fields, which is only sound when all four fields are present
or when no reduced map is built (the skip decision and the KeyError
fallback, the only paths the claims about this function use); the reduced
map and the TypeError its None values raise downstream are modelled
faithfully by CompressedMsg, originalHandleTelemetryCompressed and
enhancedHandleTelemetryExcept below. -/
def compressTelemetry (compression_enabled : Bool)
    (distFn : ℚ → ℚ → ℚ → ℚ → ℚ)
    (current_data : RawMsg) (previous_data : Option Sample) :
    Option RawMsg × Bool :=
  if compression_enabled = false then (some current_data, true) else
  match previous_data with
  | none => (some current_data, true)
  | some prev =>
      let battery_change := |current_data.battery.getD 0 - prev.battery|
      let temp_change := |current_data.temperature.getD 0 - prev.temperature|
      let position_change :=
        distFn (current_data.lat.getD 0) (current_data.lon.getD 0) prev.lat prev.lon
      if 2 < battery_change ∨ 1 < temp_change ∨ 1/100 < position_change then
        match current_data.device_id, current_data.timestamp with
        | some did, some ts =>
            (some { device_id := some did, timestamp := some ts,
                    lat := current_data.lat, lon := current_data.lon,
                    battery := current_data.battery,
                    temperature := current_data.temperature,
                    compressed := some true }, true)
        | _, _ => (some current_data, true)
      else
        (none, false)

/-- Embedding of PredictiveMaintenance._calculate_battery_degradation
(edge_processor.py lines 219-245): ordinary least-squares slope of the last
at most 10 battery readings against their index.  The Python
ZeroDivisionError guard maps to rational division, which yields 0 on a zero
denominator, the same fallback value. -/
def batteryDegradation (history : List Sample) : ℚ :=
  if history.length < 3 then 0 else
  let batteries := (lastN 10 history).map (fun p => p.battery)
  if batteries.length < 2 then 0 else
  let n : ℚ := batteries.length
  let xs : List ℚ := (List.range batteries.length).map (fun i => (i : ℚ))
  let sum_x := xs.sum
  let sum_y := batteries.sum
  let sum_xy := ((List.zip xs batteries).map (fun p => p.1 * p.2)).sum
  let sum_x2 := (xs.map (fun x => x * x)).sum
  (n * sum_xy - sum_x * sum_y) / (n * sum_x2 - sum_x * sum_x)

/-- Usage-pattern summary returned by
PredictiveMaintenance._analyze_usage_patterns. -/
structure UsagePatterns where
  movement_intensity : ℚ
  temperature_variation : ℚ
deriving DecidableEq

/-- Embedding of PredictiveMaintenance._calculate_movement_intensity:
mean consecutive-pair great-circle distance; distFn stands for the
haversine helper. -/
def movementIntensity (distFn : ℚ → ℚ → ℚ → ℚ → ℚ)
    (movements : List (ℚ × ℚ)) : ℚ :=
  if movements.length < 2 then 0 else
  let dists := (List.zip movements movements.tail).map
    (fun p => distFn p.1.1 p.1.2 p.2.1 p.2.2)
  dists.sum / ((movements.length : ℚ) - 1)

/-- Embedding of PredictiveMaintenance._analyze_usage_patterns
(edge_processor.py lines 247-269) over the last at most 20 history points;
stdFn stands for np.std. -/
def analyzeUsagePatterns (distFn : ℚ → ℚ → ℚ → ℚ → ℚ)
    (stdFn : List ℚ → ℚ) (history : List Sample) : UsagePatterns :=
  let pts := lastN 20 history
  let movements := pts.map (fun p => (p.lat, p.lon))
  let temperatures := pts.map (fun p => p.temperature)
  { movement_intensity :=
      if movements = [] then 0 else movementIntensity distFn movements,
    temperature_variation :=
      if temperatures = [] then 0 else stdFn temperatures }

/-- Embedding of PredictiveMaintenance._calculate_health_score
(edge_processor.py lines 305-322): battery term clamped to the unit
interval with weight 0.4, usage term with weight 0.3, fixed base 0.3,
final result clamped to the unit interval. -/
def calculateHealthScore (battery_trend : ℚ) (usage_patterns : UsagePatterns) : ℚ :=
  let battery_score := max 0 (min 1 (1 + battery_trend * 10))
  let movement_score := 1 - min 1 (usage_patterns.movement_intensity / 100)
  let temp_score := 1 - min 1 (usage_patterns.temperature_variation / 20)
  let usage_score := (movement_score + temp_score) / 2
  max 0 (min 1 (battery_score * (4/10) + usage_score * (3/10) + 3/10))

/-- Embedding of PredictiveMaintenance._generate_maintenance_actions
(edge_processor.py lines 324-341). -/
def generateMaintenanceActions (health_score battery_trend : ℚ) : List String :=
  let actions :=
    if health_score < 3/10 then
      ["Immediate battery check", "Full diagnostic", "Consider replacement"]
    else if health_score < 6/10 then
      ["Scheduled maintenance", "Battery calibration", "Firmware update"]
    else ["Routine check"]
  if battery_trend < -(1/2) then actions ++ ["Battery replacement recommended"]
  else actions

/-- Maintenance prediction record built by analyze_health_trends.  The
predicted_maintenance_date is the current wall-clock time plus the horizon
and is carried here as the horizon in days; health_score is the computed
score (the source additionally rounds the reported copy to two decimals
for display, a float-formatting step on the returned dict only, while the
horizon branch reads the unrounded value embedded here). -/
structure Prediction where
  device_id : String
  health_score : ℚ
  days_until_maintenance : Nat
  confidence : ℚ
  recommended_actions : List String
  battery_degradation_rate : ℚ
deriving DecidableEq

/-- Embedding of PredictiveMaintenance.analyze_health_trends
(edge_processor.py lines 183-217): fewer than 5 history points produce no
prediction; otherwise the health score is computed and mapped to a 7, 30
or 90 day maintenance horizon. -/
def analyzeHealthTrends (distFn : ℚ → ℚ → ℚ → ℚ → ℚ) (stdFn : List ℚ → ℚ)
    (device_id : String) (telemetry_history : List Sample) : Option Prediction :=
  if telemetry_history.length < 5 then none else
  let battery_trend := batteryDegradation telemetry_history
  let usage_patterns := analyzeUsagePatterns distFn stdFn telemetry_history
  let health_score := calculateHealthScore battery_trend usage_patterns
  let days : Nat :=
    if health_score < 3/10 then 7 else if health_score < 6/10 then 30 else 90
  some { device_id := device_id, health_score := health_score,
         days_until_maintenance := days, confidence := 85/100,
         recommended_actions := generateMaintenanceActions health_score battery_trend,
         battery_degradation_rate := battery_trend }

/-- Append with the eviction discipline of collections.deque(maxlen=cap):
below capacity the element is appended, at capacity the oldest element is
dropped first. -/
def appendBounded (cap : Nat) (xs : List α) (x : α) : List α :=
  if xs.length < cap then xs ++ [x] else xs.drop 1 ++ [x]

/-- Shared in-memory stores of app.py (module-level maps) together with
the EdgeIntelligence instance state.  Per-device maps are total functions
to Option; the telemetry map mirrors defaultdict(deque(maxlen=500)) whose
reads in the handlers all go through .get with an empty default, so a
plain list-valued total function is faithful. -/
structure BackendState where
  assets : String → Option Sample
  telemetry : String → List Sample
  alerts : List Alert
  device_registry : String → Option DeviceInfo
  geofences : String → Option GeofenceConfig
  device_geofence_state : String → Option String
  edge_insights : String → Option Insight
  maintenance_predictions : String → Option Prediction
  edge : EIState

/-- Embedding of original_handle_telemetry (app.py lines 162-245): resolve
the device id, auto-register an unseen device, evaluate the geofence,
append any geofence alert, build the canonical record (reading the
geofence state after the evaluation, with default "unknown"), store it as
the current asset snapshot, append it to the bounded history, and every
10th retained sample refresh the maintenance prediction, raising a
PREDICTIVE_MAINTENANCE alert when the health score is below 0.4.  now is
the wall-clock timestamp string datetime.utcnow() would produce; the
industrial-protocol forwarding at the end is an external collaborator and
has no modelled effect on these stores. -/
def originalHandleTelemetry (distFn : ℚ → ℚ → ℚ → ℚ → ℚ) (stdFn : List ℚ → ℚ)
    (now : String) (st : BackendState) (data : RawMsg) : BackendState :=
  let device_id := resolveDeviceId data
  let protocol := data.protocol.getD "unknown"
  let registry :=
    match st.device_registry device_id with
    | some _ => st.device_registry
    | none => fun j => if j = device_id then
        some { device_type := data.device_type.getD "unknown",
               protocol := protocol, firmware_version := "unknown",
               capabilities := [], registered_at := now, status := "active" }
      else st.device_registry j
  let current_lat := data.lat.getD 0
  let current_lon := data.lon.getD 0
  let checked :=
    checkGeofenceBreach distFn (st.geofences device_id)
      (st.device_geofence_state device_id) device_id current_lat current_lon
  let gstate := fun j => if j = device_id then checked.2
                         else st.device_geofence_state j
  let alerts1 :=
    match checked.1 with
    | some ev => appendBounded 1000 st.alerts
        { device_id := device_id, atype := ev.etype, protocol := protocol }
    | none => st.alerts
  let record : Sample :=
    { device_id := device_id, timestamp := data.timestamp.getD now,
      lat := current_lat, lon := current_lon,
      battery := data.battery.getD 0, temperature := data.temperature.getD 0,
      status := data.status.getD "OK",
      device_type := data.device_type.getD "unknown",
      sensor_data := data.sensor_data.getD [],
      signal_strength := data.signal_strength.getD 0,
      protocol := protocol, received_at := data.received_at,
      geofence_state := checked.2.getD "unknown",
      edge_processed := true, compressed := data.compressed.getD false }
  let assets := fun j => if j = device_id then some record else st.assets j
  let tele := fun j => if j = device_id then
        appendBounded 500 (st.telemetry j) record
      else st.telemetry j
  let device_history := tele device_id
  let analyzed :=
    if device_history.length % 10 = 0 then
      match analyzeHealthTrends distFn stdFn device_id device_history with
      | some p =>
          ((fun j => if j = device_id then some p
                     else st.maintenance_predictions j),
           if p.health_score < 4/10 then
             appendBounded 1000 alerts1
               { device_id := device_id, atype := "PREDICTIVE_MAINTENANCE",
                 protocol := protocol }
           else alerts1)
      | none => (st.maintenance_predictions, alerts1)
    else (st.maintenance_predictions, alerts1)
  { assets := assets, telemetry := tele, alerts := analyzed.2,
    device_registry := registry, geofences := st.geofences,
    device_geofence_state := gstate, edge_insights := st.edge_insights,
    maintenance_predictions := analyzed.1, edge := st.edge }

/-- Embedding of enhanced_handle_telemetry (app.py lines 128-160): run
anomaly detection, look up the device's previous retained sample, run the
compression decision; when the change is judged insignificant and a
previous sample exists, return immediately (before the edge_insights
update, exactly as the source does); otherwise record the edge insight and
hand the processed data, the reduced compressed map when one was built,
to original_handle_telemetry.  This version inherits compressTelemetry's
collapsed reduced map and is therefore total; the faithful handoff,
including the TypeError abort on a reduced map with None-valued numeric
keys, is enhancedHandleTelemetryExcept below, which agrees with this one
away from that error path. -/
def enhancedHandleTelemetry (distFn : ℚ → ℚ → ℚ → ℚ → ℚ) (stdFn : List ℚ → ℚ)
    (predictFn : List (List ℚ) → List ℚ → Bool) (now : String)
    (st : BackendState) (data : RawMsg) : BackendState :=
  let device_id := resolveDeviceId data
  let detected := detectAnomalies predictFn st.edge device_id data
  let st1 : BackendState := { st with edge := detected.2 }
  let previous_data := (st.telemetry device_id).getLast?
  let comp := compressTelemetry true distFn data previous_data
  if comp.2 = false ∧ previous_data.isSome = true then
    st1
  else
    let processed_data := comp.1.getD data
    let ins : Insight := { last_processed := now, anomaly_detected := detected.1,
                           data_compressed := comp.1.isSome }
    let st2 : BackendState := { st1 with edge_insights :=
        fun j => if j = device_id then some ins else st1.edge_insights j }
    originalHandleTelemetry distFn stdFn now st2 processed_data

/-- The reduced map built by compress_telemetry on a significant change
(edge_processor.py lines 138-151), kept faithful: device_id and timestamp
hold the values read with brackets (their absence raises KeyError before
this map exists), while the lat, lon, battery and temperature keys are
always present and carry Python None exactly when the source message
lacks the field, so none here means the key holds None, not that the key
is absent.  The compressed key is always True and the changes_since_last
delta map is never read downstream; neither needs a field. -/
structure CompressedMsg where
  device_id : String
  timestamp : String
  lat : Option ℚ
  lon : Option ℚ
  battery : Option ℚ
  temperature : Option ℚ
deriving DecidableEq

/-- Embedding of original_handle_telemetry (app.py lines 162-245) as
invoked on the reduced compressed map.  The reads follow the source at
this input shape: the map has no legacy id, protocol, status,
device_type, sensor_data, signal_strength or received_at keys, so those
reads take their documented defaults, and its compressed key is True.
The float conversions float(data.get("lat", 0.0)) on lines 180-181 and
float(data.get("battery", 0.0)) / float(data.get("temperature", 0.0)) on
lines 204-205 receive the stored None when the key carries one and raise
TypeError.  The result is ok with the final state on completion, and
error with the state mutated up to the raise: after the auto-registration
when lat or lon is None, and after the geofence update and alert append
as well when battery or temperature is None — in either error case no
canonical record is stored. -/
def originalHandleTelemetryCompressed (distFn : ℚ → ℚ → ℚ → ℚ → ℚ)
    (stdFn : List ℚ → ℚ) (now : String) (st : BackendState)
    (data : CompressedMsg) : Except BackendState BackendState :=
  let device_id := if data.device_id = "" then "unknown" else data.device_id
  let protocol := "unknown"
  let registry :=
    match st.device_registry device_id with
    | some _ => st.device_registry
    | none => fun j => if j = device_id then
        some { device_type := "unknown", protocol := protocol,
               firmware_version := "unknown", capabilities := [],
               registered_at := now, status := "active" }
      else st.device_registry j
  let st1 : BackendState := { st with device_registry := registry }
  match data.lat, data.lon with
  | some current_lat, some current_lon =>
      let checked :=
        checkGeofenceBreach distFn (st1.geofences device_id)
          (st1.device_geofence_state device_id) device_id current_lat current_lon
      let gstate := fun j => if j = device_id then checked.2
                             else st1.device_geofence_state j
      let alerts1 :=
        match checked.1 with
        | some ev => appendBounded 1000 st1.alerts
            { device_id := device_id, atype := ev.etype, protocol := protocol }
        | none => st1.alerts
      let st2 : BackendState :=
        { st1 with device_geofence_state := gstate, alerts := alerts1 }
      match data.battery, data.temperature with
      | some battery, some temperature =>
          let record : Sample :=
            { device_id := device_id, timestamp := data.timestamp,
              lat := current_lat, lon := current_lon, battery := battery,
              temperature := temperature, status := "OK",
              device_type := "unknown", sensor_data := [],
              signal_strength := 0, protocol := protocol,
              received_at := none,
              geofence_state := checked.2.getD "unknown",
              edge_processed := true, compressed := true }
          let assets := fun j => if j = device_id then some record
                                 else st2.assets j
          let tele := fun j => if j = device_id then
                appendBounded 500 (st2.telemetry j) record
              else st2.telemetry j
          let device_history := tele device_id
          let analyzed :=
            if device_history.length % 10 = 0 then
              match analyzeHealthTrends distFn stdFn device_id device_history with
              | some p =>
                  ((fun j => if j = device_id then some p
                             else st2.maintenance_predictions j),
                   if p.health_score < 4/10 then
                     appendBounded 1000 alerts1
                       { device_id := device_id,
                         atype := "PREDICTIVE_MAINTENANCE",
                         protocol := protocol }
                   else alerts1)
              | none => (st2.maintenance_predictions, alerts1)
            else (st2.maintenance_predictions, alerts1)
          let final : BackendState :=
            { st2 with assets := assets, telemetry := tele, alerts := analyzed.2, maintenance_predictions := analyzed.1 }
          .ok final
      | _, _ => .error st2
  | _, _ => .error st1

/-- Embedding of enhanced_handle_telemetry (app.py lines 128-160) with
the compressed-path handoff kept faithful.  On a significant change with
both device_id and timestamp keys present, the reduced map of
compress_telemetry is built, its numeric keys carrying None when the
message lacks the field, and handed to original_handle_telemetry, whose
float conversions may then raise TypeError (propagated to the caller);
with device_id or timestamp missing, the dict build raises KeyError
inside compress_telemetry, whose except returns the full message for
normal processing; an insignificant change with a previous sample
returns before the insight update, as in the source.  The
compression_enabled flag is True from the constructor and never changed,
so it is folded in.  The insight's data_compressed field records
compressed_data is not None, which is True on every processed path.  The
result is error exactly when a TypeError escapes, carrying the state
mutated so far. -/
def enhancedHandleTelemetryExcept (distFn : ℚ → ℚ → ℚ → ℚ → ℚ)
    (stdFn : List ℚ → ℚ) (predictFn : List (List ℚ) → List ℚ → Bool)
    (now : String) (st : BackendState) (data : RawMsg) :
    Except BackendState BackendState :=
  let device_id := resolveDeviceId data
  let detected := detectAnomalies predictFn st.edge device_id data
  let st1 : BackendState := { st with edge := detected.2 }
  let ins : Insight := { last_processed := now, anomaly_detected := detected.1,
                         data_compressed := true }
  let st2 : BackendState := { st1 with edge_insights :=
      fun j => if j = device_id then some ins else st1.edge_insights j }
  match (st.telemetry device_id).getLast? with
  | none => .ok (originalHandleTelemetry distFn stdFn now st2 data)
  | some prev =>
      let battery_change := |data.battery.getD 0 - prev.battery|
      let temp_change := |data.temperature.getD 0 - prev.temperature|
      let position_change :=
        distFn (data.lat.getD 0) (data.lon.getD 0) prev.lat prev.lon
      if 2 < battery_change ∨ 1 < temp_change ∨ 1/100 < position_change then
        match data.device_id, data.timestamp with
        | some did, some ts =>
            let cm : CompressedMsg :=
              { device_id := did, timestamp := ts, lat := data.lat,
                lon := data.lon, battery := data.battery,
                temperature := data.temperature }
            originalHandleTelemetryCompressed distFn stdFn now st2 cm
        | _, _ => .ok (originalHandleTelemetry distFn stdFn now st2 data)
      else
        .ok st1

/-- Device command as stored in a device's command queue (app.py lines
576-582); parameters are opaque and not modelled, the id, type, status and
acknowledgment timestamp are kept. -/
structure Command where
  command_id : String
  ctype : String
  status : String
  ack_timestamp : Option String
deriving DecidableEq

/-- Embedding of the ack_command route body for a present device queue
(app.py lines 611-624): linear scan by command id; the first match has its
status set to "acknowledged" and its ack timestamp set to the current
time, and success is returned; no match yields the "Command not found"
error and, the scan being read-only until a match, the queue is unchanged. -/
def ackCommand (queue : List Command) (command_id now : String) :
    Except String (List Command) :=
  match queue with
  | [] => .error "Command not found"
  | c :: rest =>
      if c.command_id = command_id then
        .ok ({ c with status := "acknowledged", ack_timestamp := some now } :: rest)
      else
        match ackCommand rest command_id now with
        | .ok rest' => .ok (c :: rest')
        | .error e => .error e

/-- State of a freshly constructed EdgeIntelligence instance: both the
anomaly_models and pattern_cache dicts start empty. -/
def initEIState : EIState := ⟨fun _ => false, fun _ => none⟩

/-- The module-level in-memory stores of app.py at process start: every
map empty, the alert deque empty. -/
def initBackendState : BackendState :=
  { assets := fun _ => none, telemetry := fun _ => [], alerts := [],
    device_registry := fun _ => none, geofences := fun _ => none,
    device_geofence_state := fun _ => none, edge_insights := fun _ => none,
    maintenance_predictions := fun _ => none, edge := initEIState }

/-- Sample distance function for concrete evaluation: returns the third
coordinate, so the distance from the center is the reported latitude. -/
def latDist : ℚ → ℚ → ℚ → ℚ → ℚ := fun _ _ la _ => la

/-- Sample distance function for concrete evaluation: constantly zero. -/
def zeroDist : ℚ → ℚ → ℚ → ℚ → ℚ := fun _ _ _ _ => 0

/-- Sample standard-deviation function for concrete evaluation. -/
def zeroStd : List ℚ → ℚ := fun _ => 0

/-- Sample outlier-model prediction function that flags everything, used
to show results that hold whatever the model answers. -/
def flagAll : List (List ℚ) → List ℚ → Bool := fun _ _ => true

/-- Concrete canonical sample used as stored history in the examples. -/
def mkSample (did : String) (b t la lo : ℚ) : Sample :=
  { device_id := did, timestamp := "t0", lat := la, lon := lo, battery := b,
    temperature := t, status := "OK", device_type := "tracker",
    sensor_data := [], signal_strength := -70, protocol := "mqtt",
    received_at := none, geofence_state := "unknown",
    edge_processed := true, compressed := false }

/-- Backend state holding one prior sample for device d, battery 50 and
temperature 20 at the origin. -/
def histSt : BackendState :=
  { initBackendState with
      telemetry := fun j => if j = "d" then [mkSample "d" 50 20 0 0] else [] }

/-- Message from device d that repeats the stored sample's battery,
temperature and position, so the compression pre-filter judges it
insignificant. -/
def repeatMsg : RawMsg :=
  { device_id := some "d", timestamp := some "t1", battery := some 50,
    temperature := some 20, lat := some 0, lon := some 0,
    status := some "LOW", protocol := some "http" }

/-- Message from device d with a significant battery jump and a
non-default status, carrying both device_id and timestamp keys. -/
def jumpMsg : RawMsg :=
  { device_id := some "d", timestamp := some "t1", battery := some 80,
    temperature := some 20, lat := some 0, lon := some 0,
    status := some "CRITICAL", device_type := some "tracker",
    signal_strength := some (-60), protocol := some "http" }

/-- Message from device d with a significant battery jump and a
non-default status but no timestamp key. -/
def noTsMsg : RawMsg :=
  { device_id := some "d", battery := some 80, status := some "CRITICAL" }

/-- Message from device d carrying device_id, timestamp and a significant
battery jump but no lat, lon or temperature keys, so the reduced
compressed map carries None for those. -/
def batOnlyMsg : RawMsg :=
  { device_id := some "d", timestamp := some "t1", battery := some 80 }

/-- Backend state with a radius-1 geofence centered at the origin for
device d and stored containment inside. -/
def gfSt : BackendState :=
  { initBackendState with
      geofences := fun j => if j = "d" then some ⟨0, 0, 1, true, false, "zone"⟩
                            else none,
      device_geofence_state := fun j => if j = "d" then some "inside" else none }

/-- Telemetry message from device d at latitude 2, which latDist places
2 km from the geofence center. -/
def gfMsg : RawMsg :=
  { device_id := some "d", timestamp := some "t1", lat := some 2,
    lon := some 0, battery := some 50 }

/-! Helper lemmas. -/

/-- Dropping one more element before an append is the same as dropping it
after, when the first list is nonempty. -/
theorem drop_succ_append {α : Type} (xs ys : List α) (n : Nat) (hxs : xs ≠ []) :
    (xs ++ ys).drop (n + 1) = (xs.drop 1 ++ ys).drop n := by
  cases xs with
  | nil => exact absurd rfl hxs
  | cons b xs' => simp

/-- Folding appendBounded keeps exactly the newest cap elements of the
stream, in order. -/
theorem foldl_appendBounded {α : Type} (cap : Nat) (hcap : 0 < cap) :
    ∀ (L xs : List α), xs.length ≤ cap →
      L.foldl (appendBounded cap) xs = (xs ++ L).drop (xs.length + L.length - cap) := by
  intro L
  induction L with
  | nil =>
      intro xs hxs
      simp [Nat.sub_eq_zero_of_le hxs]
  | cons a L ih =>
      intro xs hxs
      by_cases h : xs.length < cap
      · have hstep : appendBounded cap xs a = xs ++ [a] := by
          simp [appendBounded, h]
        have hlen : (xs ++ [a]).length ≤ cap := by
          simp; omega
        calc (a :: L).foldl (appendBounded cap) xs
            = L.foldl (appendBounded cap) (xs ++ [a]) := by simp [hstep]
          _ = ((xs ++ [a]) ++ L).drop ((xs ++ [a]).length + L.length - cap) := ih _ hlen
          _ = (xs ++ a :: L).drop (xs.length + (a :: L).length - cap) := by
              simp; ring_nf
      · have hfull : xs.length = cap := Nat.le_antisymm hxs (Nat.le_of_not_lt h)
        have hne : xs ≠ [] := by
          intro hnil
          rw [hnil] at hfull
          simp at hfull
          omega
        have hstep : appendBounded cap xs a = xs.drop 1 ++ [a] := by
          simp [appendBounded, h]
        have hlen1 : (xs.drop 1 ++ [a]).length = cap := by
          simp only [List.length_append, List.length_drop, List.length_cons,
            List.length_nil]
          omega
        calc (a :: L).foldl (appendBounded cap) xs
            = L.foldl (appendBounded cap) (xs.drop 1 ++ [a]) := by simp [hstep]
          _ = ((xs.drop 1 ++ [a]) ++ L).drop ((xs.drop 1 ++ [a]).length + L.length - cap) :=
              ih _ (le_of_eq hlen1)
          _ = (xs.drop 1 ++ (a :: L)).drop (L.length) := by
              rw [hlen1, Nat.add_sub_cancel_left, List.append_assoc,
                List.singleton_append]
          _ = (xs ++ a :: L).drop (L.length + 1) := (drop_succ_append xs (a :: L) L.length hne).symm
          _ = (xs ++ a :: L).drop (xs.length + (a :: L).length - cap) := by
              congr 1
              simp only [List.length_cons, hfull]
              omega

/-- Claim C2: the retained telemetry history is a bounded sequence of
capacity 500: after appending N samples to an empty history it contains
exactly the last min(N, 500) samples in arrival order, the oldest having
been evicted first. -/
theorem telemetry_history_bounded (L : List Sample) :
    L.foldl (appendBounded 500) [] = L.drop (L.length - 500) ∧
    (L.foldl (appendBounded 500) []).length = min L.length 500 := by
  have h := foldl_appendBounded 500 (by norm_num) L [] (by simp)
  simp at h
  refine ⟨h, ?_⟩
  rw [h]
  simp
  omega

/-- Claim C4 counterexample: a message with no device_id field whose
legacy id field is present but empty resolves to the empty string, so the
resolved device id of the canonical sample can be empty. -/
theorem resolve_device_id_empty_cex :
    resolveDeviceId { id := some "" } = "" := by
  rfl

/-- Claim C4 (amended): the resolved device id is the device_id field when
that is non-empty, else the legacy id field whenever present (even when
its value is the empty string), else the sentinel unknown; consequently it
is empty exactly when the id field is present and empty while the
device_id field is absent or empty. -/
theorem resolve_device_id_empty_iff (m : RawMsg) :
    resolveDeviceId m = "" ↔
      ((m.device_id = none ∨ m.device_id = some "") ∧ m.id = some "") := by
  rcases m with ⟨did, lid, _⟩
  cases did with
  | none =>
      cases lid with
      | none => simp [resolveDeviceId]
      | some s => simp [resolveDeviceId]
  | some d =>
      by_cases hd : d = ""
      · cases lid with
        | none => simp [resolveDeviceId, hd]
        | some s => simp [resolveDeviceId, hd]
      · simp [resolveDeviceId, hd]

/-- Claim C8: for every battery-degradation slope and usage-pattern input,
however extreme, the computed health score lies in the closed unit
interval. -/
theorem health_score_in_unit_interval (battery_trend : ℚ) (usage_patterns : UsagePatterns) :
    0 ≤ calculateHealthScore battery_trend usage_patterns ∧
      calculateHealthScore battery_trend usage_patterns ≤ 1 := by
  unfold calculateHealthScore
  exact ⟨le_max_left _ _, max_le (by norm_num) (min_le_left _ _)⟩

/-- Claim C9 counterexample: acknowledging an already-acknowledged command
is not a no-op: the second acknowledgment overwrites the stored
acknowledgment timestamp with the new time, so the queue changes. -/
theorem ack_already_acknowledged_not_noop_cex :
    ackCommand [⟨"c1", "reboot", "acknowledged", some "T1"⟩] "c1" "T2" ≠
      Except.ok [⟨"c1", "reboot", "acknowledged", some "T1"⟩] := by
  intro h
  simp [ackCommand] at h

/-- Claim C9 (amended): acknowledging a command id present in the queue
succeeds and transitions the first matching command to acknowledged with
the current acknowledgment timestamp; an id not present in the queue
yields the Command-not-found error (the scan mutates nothing before a
match, so the queue is unchanged); re-acknowledging an already
acknowledged command succeeds again, keeps the status acknowledged, and
refreshes the acknowledgment timestamp. -/
theorem ack_command_lifecycle (q : List Command) (cid now : String) :
    ((∀ c ∈ q, c.command_id ≠ cid) → ackCommand q cid now = .error "Command not found") ∧
    ((∃ c ∈ q, c.command_id = cid) → ∃ q', ackCommand q cid now = .ok q' ∧
       q'.length = q.length ∧
       ∃ c' ∈ q', c'.command_id = cid ∧ c'.status = "acknowledged" ∧
         c'.ack_timestamp = some now) := by
  induction q with
  | nil => simp [ackCommand]
  | cons c rest ih =>
      constructor
      · intro hall
        have hc : c.command_id ≠ cid := hall c (by simp)
        have hrest : ∀ x ∈ rest, x.command_id ≠ cid := fun x hx => hall x (by simp [hx])
        have := ih.1 hrest
        simp [ackCommand, hc, this]
      · intro hex
        by_cases hc : c.command_id = cid
        · refine ⟨{ c with status := "acknowledged", ack_timestamp := some now } :: rest,
            by simp [ackCommand, hc], by simp, ?_⟩
          exact ⟨{ c with status := "acknowledged", ack_timestamp := some now },
            by simp, hc, rfl, rfl⟩
        · have hex' : ∃ x ∈ rest, x.command_id = cid := by
            rcases hex with ⟨x, hx, hxid⟩
            rcases List.mem_cons.mp hx with h1 | h2
            · exact absurd (h1 ▸ hxid) hc
            · exact ⟨x, h2, hxid⟩
          rcases ih.2 hex' with ⟨q', hq', hlen, c', hc', hcid, hst, hts⟩
          exact ⟨c :: q', by simp [ackCommand, hc, hq'], by simp [hlen],
            c', by simp [hc'], hcid, hst, hts⟩

/-- Claim C9 witness: on a concrete one-command queue, acknowledging an
unknown id errors and acknowledging the queued id succeeds with the
acknowledged status and timestamp set. -/
theorem ack_command_lifecycle_witness :
    (ackCommand [⟨"c1", "reboot", "pending", none⟩] "zz" "T1" =
      .error "Command not found") ∧
    (∃ q', ackCommand [⟨"c1", "reboot", "pending", none⟩] "c1" "T1" = .ok q' ∧
       q'.length = 1 ∧
       ∃ c' ∈ q', c'.command_id = "c1" ∧ c'.status = "acknowledged" ∧
         c'.ack_timestamp = some "T1") := by
  constructor
  · exact (ack_command_lifecycle [⟨"c1", "reboot", "pending", none⟩] "zz" "T1").1
      (by decide)
  · exact (ack_command_lifecycle [⟨"c1", "reboot", "pending", none⟩] "c1" "T1").2
      (by decide)

/-- Claim C1: geofence evaluation is edge-triggered.  With no geofence the
evaluation is a no-op with no event; with a geofence, containment is
inside exactly when the computed distance is at most the radius, nothing
happens when the computed containment equals the stored one (default
inside), the stored state flips on every transition even when the
matching alert flag is false, a breach event is emitted on
inside-to-outside exactly when alert_on_breach is set, and a return event
on outside-to-inside exactly when alert_on_return is set. -/
theorem geofence_edge_triggered (distFn : ℚ → ℚ → ℚ → ℚ → ℚ)
    (g : GeofenceConfig) (prev : Option String) (id : String) (lat lon : ℚ) :
    (checkGeofenceBreach distFn none prev id lat lon = (none, prev)) ∧
    (prev.getD "inside" =
        (if distFn g.center_lat g.center_lon lat lon ≤ g.radius_km
         then "inside" else "outside") →
      checkGeofenceBreach distFn (some g) prev id lat lon = (none, prev)) ∧
    (prev.getD "inside" ≠
        (if distFn g.center_lat g.center_lon lat lon ≤ g.radius_km
         then "inside" else "outside") →
      (checkGeofenceBreach distFn (some g) prev id lat lon).2 =
        some (if distFn g.center_lat g.center_lon lat lon ≤ g.radius_km
              then "inside" else "outside")) ∧
    (prev.getD "inside" = "inside" →
      ¬ distFn g.center_lat g.center_lon lat lon ≤ g.radius_km →
      (checkGeofenceBreach distFn (some g) prev id lat lon).1 =
        if g.alert_on_breach then
          some ⟨"GEOFENCE_BREACH", id, "inside", "outside", g.name⟩
        else none) ∧
    (prev.getD "inside" = "outside" →
      distFn g.center_lat g.center_lon lat lon ≤ g.radius_km →
      (checkGeofenceBreach distFn (some g) prev id lat lon).1 =
        if g.alert_on_return then
          some ⟨"GEOFENCE_RETURN", id, "outside", "inside", g.name⟩
        else none) := by
  refine ⟨by simp [checkGeofenceBreach], ?_, ?_, ?_, ?_⟩
  · intro h
    simp [checkGeofenceBreach, h]
  · intro h
    by_cases hd : distFn g.center_lat g.center_lon lat lon ≤ g.radius_km <;>
      simp [hd] at h <;>
      cases hb : g.alert_on_breach <;> cases hr : g.alert_on_return <;>
      simp [checkGeofenceBreach, hd, h, hb, hr]
  · intro hp hd
    cases hb : g.alert_on_breach <;>
      simp [checkGeofenceBreach, hd, hp, hb]
  · intro hp hd
    cases hr : g.alert_on_return <;>
      simp [checkGeofenceBreach, hd, hp, hr]

/-- Claim C1 witness: with the sample distance function and a radius-1
geofence with alert_on_breach set and alert_on_return unset, the absent
geofence is a no-op, a sample inside with stored state inside emits
nothing, a sample at distance 2 flips the state to outside and emits a
breach event, and a stored outside state with a sample inside flips back
emitting nothing because alert_on_return is unset. -/
theorem geofence_edge_triggered_witness :
    (checkGeofenceBreach latDist none (some "inside") "d" 2 0 = (none, some "inside")) ∧
    (checkGeofenceBreach latDist (some ⟨0, 0, 1, true, false, "zone"⟩)
       (some "inside") "d" 0 0 = (none, some "inside")) ∧
    ((checkGeofenceBreach latDist (some ⟨0, 0, 1, true, false, "zone"⟩)
       (some "inside") "d" 2 0).2 = some "outside") ∧
    ((checkGeofenceBreach latDist (some ⟨0, 0, 1, true, false, "zone"⟩)
       (some "inside") "d" 2 0).1 =
      some ⟨"GEOFENCE_BREACH", "d", "inside", "outside", "zone"⟩) ∧
    ((checkGeofenceBreach latDist (some ⟨0, 0, 1, true, false, "zone"⟩)
       (some "outside") "d" 0 0).1 = none) := by
  have h1 := (geofence_edge_triggered latDist ⟨0, 0, 1, true, false, "zone"⟩
    (some "inside") "d" 2 0).1
  have h2 := (geofence_edge_triggered latDist ⟨0, 0, 1, true, false, "zone"⟩
    (some "inside") "d" 0 0).2.1 (by norm_num [latDist])
  have h3 := (geofence_edge_triggered latDist ⟨0, 0, 1, true, false, "zone"⟩
    (some "inside") "d" 2 0).2.2.1 (by norm_num [latDist]; decide)
  have h4 := (geofence_edge_triggered latDist ⟨0, 0, 1, true, false, "zone"⟩
    (some "inside") "d" 2 0).2.2.2.1 rfl (by norm_num [latDist])
  have h5 := (geofence_edge_triggered latDist ⟨0, 0, 1, true, false, "zone"⟩
    (some "outside") "d" 0 0).2.2.2.2 rfl (by norm_num [latDist])
  norm_num [latDist] at h3 h4 h5
  exact ⟨h1, h2, h3, h4, h5⟩

/-- Claim C5 (code bug): starting from a fresh EdgeIntelligence state, ten
evaluations of the anomaly scorer on a previously-unseen device all take
the early cold-start return, so they do report not-anomalous, but the
per-device feature cache still holds zero points afterwards, not the at
least ten the claim requires: the cache-append branch is unreachable
because nothing ever populates anomaly_models.  This holds even for a
model function that flags every point. -/
theorem anomaly_cache_never_populated :
    (((List.replicate 10
        ({ device_id := some "dev", battery := some 42 } : RawMsg)).foldl
        (fun s m => (detectAnomalies flagAll s "dev" m).2) initEIState).pattern_cache
        "dev" = some []) ∧
    ((detectAnomalies flagAll
        ((List.replicate 10
          ({ device_id := some "dev", battery := some 42 } : RawMsg)).foldl
          (fun s m => (detectAnomalies flagAll s "dev" m).2) initEIState)
        "dev" { device_id := some "dev", battery := some 42 }).1 = false) := by
  constructor <;> rfl

/-- Claim C6 (code bug): a sample judged insignificant by the compression
pre-filter (battery, temperature and position all within thresholds of
the stored previous sample) is skipped by the pipeline: no history
append, no asset snapshot, no registry update; but contrary to the claim
and to the source's own comment, the early return happens before the
edge-insight bookkeeping update, so edge_insights is left untouched as
well. -/
theorem compression_skip_drops_insights :
    ((enhancedHandleTelemetry zeroDist zeroStd flagAll "T1" histSt repeatMsg).edge_insights
        "d" = none) ∧
    ((enhancedHandleTelemetry zeroDist zeroStd flagAll "T1" histSt repeatMsg).telemetry
        "d" = histSt.telemetry "d") ∧
    ((enhancedHandleTelemetry zeroDist zeroStd flagAll "T1" histSt repeatMsg).assets
        "d" = none) ∧
    ((enhancedHandleTelemetry zeroDist zeroStd flagAll "T1" histSt repeatMsg).device_registry
        "d" = none) := by
  have hid : resolveDeviceId repeatMsg = "d" := rfl
  have hlast : (histSt.telemetry "d").getLast? = some (mkSample "d" 50 20 0 0) := rfl
  have hcomp : compressTelemetry true zeroDist repeatMsg
      (some (mkSample "d" 50 20 0 0)) = (none, false) := by
    norm_num [compressTelemetry, repeatMsg, mkSample, zeroDist]
  simp only [enhancedHandleTelemetry, hid, hlast, hcomp]
  norm_num [histSt, initBackendState]

/-- With a geofence configured and a stored containment state present,
the evaluation always leaves the stored state equal to the containment
computed from this position, whether or not a transition happened. -/
theorem checkGeofenceBreach_snd (distFn : ℚ → ℚ → ℚ → ℚ → ℚ)
    (g : GeofenceConfig) (p : String) (id : String) (lat lon : ℚ) :
    (checkGeofenceBreach distFn (some g) (some p) id lat lon).2 =
      some (if distFn g.center_lat g.center_lon lat lon ≤ g.radius_km
            then "inside" else "outside") := by
  by_cases hp : p = (if distFn g.center_lat g.center_lon lat lon ≤ g.radius_km
      then "inside" else "outside")
  · simp [checkGeofenceBreach, hp]
  · by_cases hd : distFn g.center_lat g.center_lon lat lon ≤ g.radius_km <;>
      cases hb : g.alert_on_breach <;> cases hr : g.alert_on_return <;>
      simp [checkGeofenceBreach, hd, hp, hb, hr] <;>
      split <;> simp_all

/-- Appending to a bounded history always leaves the appended element
last. -/
theorem appendBounded_getLast {α : Type} (cap : Nat) (xs : List α) (x : α) :
    (appendBounded cap xs x).getLast? = some x := by
  unfold appendBounded
  split <;> simp

/-- Claim C3: the geofence is evaluated before the canonical sample is
recorded, so for a device with a configured geofence and a stored
containment state, the sample stored as the asset snapshot and appended
last to the history carries a geofence_state equal to the containment
computed from this sample's position, which is also the stored
containment after the evaluation. -/
theorem stored_geofence_state_post_transition
    (distFn : ℚ → ℚ → ℚ → ℚ → ℚ) (stdFn : List ℚ → ℚ) (now : String)
    (st : BackendState) (data : RawMsg) (g : GeofenceConfig) (p : String)
    (hg : st.geofences (resolveDeviceId data) = some g)
    (hs : st.device_geofence_state (resolveDeviceId data) = some p) :
    (((originalHandleTelemetry distFn stdFn now st data).assets
        (resolveDeviceId data)).map Sample.geofence_state =
      some (if distFn g.center_lat g.center_lon (data.lat.getD 0) (data.lon.getD 0)
              ≤ g.radius_km then "inside" else "outside")) ∧
    ((((originalHandleTelemetry distFn stdFn now st data).telemetry
        (resolveDeviceId data)).getLast?).map Sample.geofence_state =
      some (if distFn g.center_lat g.center_lon (data.lat.getD 0) (data.lon.getD 0)
              ≤ g.radius_km then "inside" else "outside")) ∧
    ((originalHandleTelemetry distFn stdFn now st data).device_geofence_state
        (resolveDeviceId data) =
      some (if distFn g.center_lat g.center_lon (data.lat.getD 0) (data.lon.getD 0)
              ≤ g.radius_km then "inside" else "outside")) := by
  have hsnd := checkGeofenceBreach_snd distFn g p (resolveDeviceId data)
    (data.lat.getD 0) (data.lon.getD 0)
  simp only [originalHandleTelemetry, hg, hs, hsnd]
  refine ⟨by simp, ?_, by simp⟩
  simp [appendBounded_getLast]

/-- Claim C3 witness: a device inside a radius-1 geofence reporting
latitude 2 is stored with geofence_state outside in both the asset
snapshot and the last history entry, matching the stored containment. -/
theorem stored_geofence_state_post_transition_witness :
    (((originalHandleTelemetry latDist zeroStd "T1" gfSt gfMsg).assets "d").map
        Sample.geofence_state = some "outside") ∧
    ((((originalHandleTelemetry latDist zeroStd "T1" gfSt gfMsg).telemetry
        "d").getLast?).map Sample.geofence_state = some "outside") ∧
    ((originalHandleTelemetry latDist zeroStd "T1" gfSt gfMsg).device_geofence_state
        "d" = some "outside") := by
  have h := stored_geofence_state_post_transition latDist zeroStd "T1" gfSt gfMsg
    ⟨0, 0, 1, true, false, "zone"⟩ "inside" rfl rfl
  have hid : resolveDeviceId gfMsg = "d" := rfl
  have hcore : (if latDist (⟨0, 0, 1, true, false, "zone"⟩ : GeofenceConfig).center_lat
      (⟨0, 0, 1, true, false, "zone"⟩ : GeofenceConfig).center_lon
      (gfMsg.lat.getD 0) (gfMsg.lon.getD 0) ≤
      (⟨0, 0, 1, true, false, "zone"⟩ : GeofenceConfig).radius_km
      then "inside" else "outside") = "outside" := by
    norm_num [latDist, gfMsg]
  rw [hid, hcore] at h
  exact h

/-- Claim C7: the maintenance predictor returns no prediction, without
failing, on a history of fewer than 5 points; with at least 5 points it
returns a prediction whose maintenance horizon is 7 days when the health
score is below 0.3, 30 days when below 0.6, and 90 days otherwise. -/
theorem maintenance_predictor_horizon (distFn : ℚ → ℚ → ℚ → ℚ → ℚ)
    (stdFn : List ℚ → ℚ) (device_id : String) (history : List Sample) :
    (history.length < 5 → analyzeHealthTrends distFn stdFn device_id history = none) ∧
    (5 ≤ history.length → ∃ p,
      analyzeHealthTrends distFn stdFn device_id history = some p ∧
      p.days_until_maintenance =
        (if p.health_score < 3/10 then 7
         else if p.health_score < 6/10 then 30 else 90)) := by
  constructor
  · intro h
    simp [analyzeHealthTrends, h]
  · intro h
    have h5 : ¬ history.length < 5 := Nat.not_lt.mpr h
    unfold analyzeHealthTrends
    rw [if_neg h5]
    exact ⟨_, rfl, rfl⟩

/-- Claim C7 witness: four identical samples yield no prediction; five
yield a prediction whose horizon agrees with its health-score band. -/
theorem maintenance_predictor_horizon_witness :
    (analyzeHealthTrends zeroDist zeroStd "d"
      (List.replicate 4 (mkSample "d" 50 20 0 0)) = none) ∧
    (∃ p, analyzeHealthTrends zeroDist zeroStd "d"
        (List.replicate 5 (mkSample "d" 50 20 0 0)) = some p ∧
      p.days_until_maintenance =
        (if p.health_score < 3/10 then 7
         else if p.health_score < 6/10 then 30 else 90)) := by
  constructor
  · exact (maintenance_predictor_horizon zeroDist zeroStd "d" _).1 (by simp)
  · exact (maintenance_predictor_horizon zeroDist zeroStd "d" _).2 (by simp)

/-- Whatever the incoming state, the asset snapshot stored for the
resolved device carries the status, device type, sensor data, signal
strength and protocol fields read from the processed message with their
documented defaults. -/
theorem original_assets_fields (distFn : ℚ → ℚ → ℚ → ℚ → ℚ)
    (stdFn : List ℚ → ℚ) (now : String) (st : BackendState) (data : RawMsg)
    (id : String) (h : id = resolveDeviceId data) :
    ((originalHandleTelemetry distFn stdFn now st data).assets id).map
      (fun r => (r.status, r.device_type, r.sensor_data, r.signal_strength,
                 r.protocol)) =
      some (data.status.getD "OK", data.device_type.getD "unknown",
            data.sensor_data.getD [], data.signal_strength.getD 0,
            data.protocol.getD "unknown") := by
  subst h
  simp [originalHandleTelemetry]

/-- On a reduced map carrying actual values for all four numeric keys,
processing completes and the stored asset snapshot takes the default
status, device type, sensor data, signal strength and protocol the
reduced map forces. -/
theorem originalCompressed_ok_assets (distFn : ℚ → ℚ → ℚ → ℚ → ℚ)
    (stdFn : List ℚ → ℚ) (now : String) (st : BackendState)
    (cm : CompressedMsg) (la lo b t : ℚ)
    (hla : cm.lat = some la) (hlo : cm.lon = some lo)
    (hb : cm.battery = some b) (ht : cm.temperature = some t)
    (id : String)
    (h : id = (if cm.device_id = "" then "unknown" else cm.device_id)) :
    ∃ st', originalHandleTelemetryCompressed distFn stdFn now st cm = .ok st' ∧
      (st'.assets id).map
        (fun r => (r.status, r.device_type, r.sensor_data, r.signal_strength,
                   r.protocol)) =
        some ("OK", "unknown", ([] : List (String × String)), (0 : ℚ),
              "unknown") := by
  subst h
  simp only [originalHandleTelemetryCompressed, hla, hlo, hb, ht]
  refine ⟨_, rfl, ?_⟩
  simp

/-- On a reduced map whose lat, lon, battery or temperature key carries
None, processing aborts with a TypeError before the canonical record is
built: the result is an error state whose asset snapshots and telemetry
histories are exactly those of the input state. -/
theorem originalCompressed_error (distFn : ℚ → ℚ → ℚ → ℚ → ℚ)
    (stdFn : List ℚ → ℚ) (now : String) (st : BackendState)
    (cm : CompressedMsg)
    (h : cm.lat = none ∨ cm.lon = none ∨ cm.battery = none ∨
         cm.temperature = none) :
    ∃ st_err,
      originalHandleTelemetryCompressed distFn stdFn now st cm = .error st_err ∧
      st_err.assets = st.assets ∧ st_err.telemetry = st.telemetry := by
  rcases hla : cm.lat with _ | la <;> rcases hlo : cm.lon with _ | lo <;>
    rcases hb : cm.battery with _ | b <;> rcases ht : cm.temperature with _ | t <;>
    simp only [originalHandleTelemetryCompressed, hla, hlo, hb, ht] <;>
    first
      | exact ⟨_, rfl, rfl, rfl⟩
      | simp_all

/-- Claim C10 counterexample: a message lacking the timestamp key, from a
device with a previous sample and a significant battery jump, is not
stored from the reduced compressed map: building that map fails with
KeyError, the full original message is processed, and the stored record
keeps the message's CRITICAL status instead of the default OK. -/
theorem compressed_record_missing_timestamp_cex :
    ∃ st', enhancedHandleTelemetryExcept zeroDist zeroStd flagAll "T1" histSt
        noTsMsg = .ok st' ∧
      ((st'.assets "d").map
        (fun r => (r.status, r.device_type, r.sensor_data, r.signal_strength,
                   r.protocol)) =
        some ("CRITICAL", "unknown", ([] : List (String × String)), (0 : ℚ),
              "unknown")) := by
  have hid : resolveDeviceId noTsMsg = "d" := rfl
  have hlast : (histSt.telemetry "d").getLast? = some (mkSample "d" 50 20 0 0) := rfl
  have hd0 : noTsMsg.device_id = some "d" := rfl
  have ht0 : noTsMsg.timestamp = none := rfl
  simp only [enhancedHandleTelemetryExcept, hid, hlast]
  rw [if_pos (Or.inl (by norm_num [noTsMsg, mkSample]))]
  simp only [hd0, ht0]
  refine ⟨_, rfl, ?_⟩
  rw [original_assets_fields zeroDist zeroStd "T1" _ _ "d" hid.symm]
  rfl

/-- Claim C10 (amended): for a message whose device has a stored previous
sample and whose change the compression pre-filter judges significant,
carrying a non-empty device_id key and a timestamp key: when the message
also carries lat, lon, battery and temperature, processing completes and
the stored canonical record is built from the reduced compressed map, so
its status, device_type, sensor_data, signal_strength and protocol fields
take the default values regardless of what the message carried; when any
of lat, lon, battery or temperature is missing, the reduced map carries
None there, the float conversion in original_handle_telemetry raises
TypeError, and processing aborts storing no record: the asset snapshot
and telemetry history of the device are unchanged. -/
theorem compressed_record_defaults
    (distFn : ℚ → ℚ → ℚ → ℚ → ℚ) (stdFn : List ℚ → ℚ)
    (predictFn : List (List ℚ) → List ℚ → Bool) (now : String)
    (st : BackendState) (data : RawMsg) (prev : Sample) (did ts : String)
    (hdid : data.device_id = some did) (hne : did ≠ "")
    (hts : data.timestamp = some ts)
    (hprev : (st.telemetry did).getLast? = some prev)
    (hsig : 2 < |data.battery.getD 0 - prev.battery| ∨
            1 < |data.temperature.getD 0 - prev.temperature| ∨
            1/100 < distFn (data.lat.getD 0) (data.lon.getD 0) prev.lat prev.lon) :
    (data.lat.isSome = true → data.lon.isSome = true →
     data.battery.isSome = true → data.temperature.isSome = true →
      ∃ st', enhancedHandleTelemetryExcept distFn stdFn predictFn now st data =
          .ok st' ∧
        (st'.assets did).map
          (fun r => (r.status, r.device_type, r.sensor_data, r.signal_strength,
                     r.protocol)) =
          some ("OK", "unknown", ([] : List (String × String)), (0 : ℚ),
                "unknown")) ∧
    ((data.lat = none ∨ data.lon = none ∨ data.battery = none ∨
        data.temperature = none) →
      ∃ st_err, enhancedHandleTelemetryExcept distFn stdFn predictFn now st data =
          .error st_err ∧
        st_err.assets did = st.assets did ∧
        st_err.telemetry did = st.telemetry did) := by
  have hid : resolveDeviceId data = did := by
    simp [resolveDeviceId, hdid, hne]
  constructor
  · intro hla0 hlo0 hb0 ht0
    obtain ⟨la, hla⟩ := Option.isSome_iff_exists.mp hla0
    obtain ⟨lo, hlo⟩ := Option.isSome_iff_exists.mp hlo0
    obtain ⟨b, hb⟩ := Option.isSome_iff_exists.mp hb0
    obtain ⟨t, ht⟩ := Option.isSome_iff_exists.mp ht0
    simp only [enhancedHandleTelemetryExcept, hid, hprev]
    rw [if_pos hsig]
    simp only [hdid, hts]
    exact originalCompressed_ok_assets distFn stdFn now _
      ⟨did, ts, data.lat, data.lon, data.battery, data.temperature⟩
      la lo b t hla hlo hb ht did (by simp [hne])
  · intro h
    simp only [enhancedHandleTelemetryExcept, hid, hprev]
    rw [if_pos hsig]
    simp only [hdid, hts]
    rcases h with hx | hx | hx | hx
    · simp only [originalHandleTelemetryCompressed, hx]
      exact ⟨_, rfl, rfl, rfl⟩
    · rcases hla2 : data.lat with _ | la <;>
        simp only [originalHandleTelemetryCompressed, hx, hla2] <;>
        exact ⟨_, rfl, rfl, rfl⟩
    · rcases hla2 : data.lat with _ | la <;>
        rcases hlo2 : data.lon with _ | lo <;>
        simp only [originalHandleTelemetryCompressed, hx, hla2, hlo2] <;>
        exact ⟨_, rfl, rfl, rfl⟩
    · rcases hla2 : data.lat with _ | la <;>
        rcases hlo2 : data.lon with _ | lo <;>
        rcases hb2 : data.battery with _ | b <;>
        simp only [originalHandleTelemetryCompressed, hx, hla2, hlo2, hb2] <;>
        exact ⟨_, rfl, rfl, rfl⟩

/-- Claim C10 witness: a message with a 30-point battery jump, a CRITICAL
status and all four numeric fields is recorded with the default status,
device type, sensor data, signal strength and protocol; a message with
the same jump but carrying only device_id, timestamp and battery makes
processing abort, leaving the device's asset snapshot and history
untouched. -/
theorem compressed_record_defaults_witness :
    (∃ st', enhancedHandleTelemetryExcept zeroDist zeroStd flagAll "T1" histSt
        jumpMsg = .ok st' ∧
      ((st'.assets "d").map
        (fun r => (r.status, r.device_type, r.sensor_data, r.signal_strength,
                   r.protocol)) =
        some ("OK", "unknown", ([] : List (String × String)), (0 : ℚ),
              "unknown"))) ∧
    (∃ st_err, enhancedHandleTelemetryExcept zeroDist zeroStd flagAll "T1" histSt
        batOnlyMsg = .error st_err ∧
      st_err.assets "d" = histSt.assets "d" ∧
      st_err.telemetry "d" = histSt.telemetry "d") := by
  constructor
  · exact (compressed_record_defaults zeroDist zeroStd flagAll "T1" histSt jumpMsg
      (mkSample "d" 50 20 0 0) "d" "t1" rfl (by decide) rfl rfl
      (Or.inl (by norm_num [jumpMsg, mkSample]))).1 rfl rfl rfl rfl
  · exact (compressed_record_defaults zeroDist zeroStd flagAll "T1" histSt
      batOnlyMsg (mkSample "d" 50 20 0 0) "d" "t1" rfl (by decide) rfl rfl
      (Or.inl (by norm_num [batOnlyMsg, mkSample]))).2 (Or.inl rfl)

end FleetTracking
